import Mathlib

/-!
Shallow embedding of `src/kudu/integration-tests/external_mini_cluster.cc`
(the external mini-cluster test harness: daemon lifecycle, startup probe,
distributed-master topology planning, tablet-server convergence wait,
cluster shutdown), together with theorems settling the specification
claims about it.

Machine strings are Lean `String`s, ports are `Nat` (C++ `uint16_t`,
never overflowed here), exit codes are `Int`.  Time quantities are
modelled as integer nanosecond counts (Kudu `MonoDelta` stores an
`int64_t` nanosecond count; `ToSeconds()` divides by 1e9, which
preserves the sign exactly, so sign tests on the double equal sign
tests on the integer).
-/

namespace ExternalMiniClusterModel

/-- Modelled from the spec: a host/port endpoint (Kudu `HostPort`,
declared in `kudu/util/net/net_util.h`, which is not part of the
source slice).  A default-constructed `HostPort` has an empty host and
port 0 — the spec treats "retained endpoints are absent" as the
default state that `Restart` rejects. -/
structure HostPort where
  host : String
  port : Nat
deriving DecidableEq, Repr

/-- Modelled from the spec: Kudu `HostPort::ToString()` renders
`host:port`. -/
def HostPort.toStr (hp : HostPort) : String :=
  hp.host ++ ":" ++ toString hp.port

/-- Modelled from the spec: the default-constructed `HostPort` (empty
host, port 0), the state of `bound_rpc_` / `bound_http_` before any
`Shutdown` captured real endpoints. -/
def HostPort.default : HostPort := ⟨"", 0⟩

/-- Embedding of `NodeInstancePB`: the durable identity of a daemon,
a permanent uuid plus a per-start sequence number (spec: "Identity").
Used by `instance_id()` (line 453) and the convergence check
(lines 272-280). -/
structure NodeInstance where
  permanent_uuid : String
  instance_seqno : Int
deriving DecidableEq, Repr

/-- Embedding of the parts of `ServerStatusPB` the harness reads: the
node instance and the bound RPC/HTTP address lists (the status
artifact of spec section 6). -/
structure ServerStatusPB where
  node_instance : NodeInstance
  bound_rpc_addresses : List HostPort
  bound_http_addresses : List HostPort
deriving DecidableEq, Repr

/-- A freshly allocated `ServerStatusPB` (`new ServerStatusPB()`,
line 393) before `ReadPBFromPath` fills it. -/
def emptyStatus : ServerStatusPB := ⟨⟨"", 0⟩, [], []⟩

/-! ## Path helpers (`kudu/util/path_util`, not in the source slice) -/

/-- Modelled from the spec: `JoinPathSegments a b` joins two path
segments with a slash (used for the status-artifact path, line 345). -/
def JoinPathSegments (a b : String) : String := a ++ "/" ++ b

/-- Character-level scan keeping the suffix after the last slash. -/
def baseNameChars : List Char → List Char → List Char
  | [], acc => acc.reverse
  | c :: cs, acc =>
    if c = '/' then baseNameChars cs [] else baseNameChars cs (c :: acc)

/-- Modelled from the spec: `BaseName` returns the final path
component of an executable path (used for `argv[0]`, line 334). -/
def BaseName (s : String) : String :=
  ⟨baseNameChars s.data []⟩

/-! ## Argument-vector assembly (`ExternalDaemon::StartProcess`, lines 329-360)

The C++ builds `argv` by sequential `push_back` / `insert` calls; the
definition mirrors that sequence step by step. -/

/-- Embedding of the argv assembly in `ExternalDaemon::StartProcess`
(lines 332-358): `argv[0]` is the executable basename, then the
role flags passed by the caller (`user_flags`), then the per-instance
`extra_flags_`, then the status-artifact path/format flags, the
unbuffered-stderr logging flags, and the localhost-only web flag. -/
def startArgv (exe data_dir : String) (extra_flags user_flags : List String) :
    List String :=
  let argv : List String := [BaseName exe]
  let argv := argv ++ user_flags
  let argv := argv ++ extra_flags
  let argv := argv ++ ["--server_dump_info_path=" ++ JoinPathSegments data_dir "info.pb"]
  let argv := argv ++ ["--server_dump_info_format=pb"]
  let argv := argv ++ ["--logtostderr"]
  let argv := argv ++ ["--logbuflevel=-1"]
  let argv := argv ++ ["--webserver_interface=localhost"]
  argv

/-! ## Startup probe (`ExternalDaemon::StartProcess`, lines 366-391)

Each loop iteration first checks whether the status artifact exists,
and if not sleeps 10ms and polls the process with a non-blocking wait.
A run of the probe is driven by the finite trace of observations the
environment supplies before the stopwatch passes the timeout; an
exhausted trace is the timeout. -/

/-- Outcome of one `WaitNoBlock` poll (lines 375-384): the process is
still running (`Status::TimedOut` from `WaitNoBlock`), it has exited
with a return code, or the wait itself failed. -/
inductive WaitObs where
  | stillRunning
  | exited (rc : Int)
  | waitErr
deriving DecidableEq, Repr

/-- One iteration's observations: whether `info_path` exists
(line 370) and, if it does not, what the non-blocking wait reports
(line 376). -/
structure ProbeStep where
  fileExists : Bool
  wait : WaitObs
deriving DecidableEq, Repr

/-- Result of the startup-probe loop. `success` means the artifact
appeared; `exitedEarly rc` is the `Status::RuntimeError("Process
exited with rc=...")` path (lines 382-384); `waitFailed` is the
`RETURN_NOT_OK` on a failed wait (line 381); `timedOut` is the
`Status::TimedOut` after the stopwatch expires (lines 387-391). -/
inductive ProbeResult where
  | success
  | exitedEarly (rc : Int)
  | waitFailed
  | timedOut
deriving DecidableEq, Repr

/-- Embedding of the probe loop (lines 366-391) over its observation
trace: check the artifact, then the non-blocking wait; when the trace
(the iterations the stopwatch allows) is exhausted, time out. -/
def runProbe : List ProbeStep → ProbeResult
  | [] => .timedOut
  | s :: rest =>
    if s.fileExists then .success
    else
      match s.wait with
      | .stillRunning => runProbe rest
      | .exited rc => .exitedEarly rc
      | .waitErr => .waitFailed

/-! ## Convergence-waiter identity matching
(`ExternalMiniCluster::WaitForTabletServerCount`, lines 268-280) -/

/-- Embedding of the inner `BOOST_FOREACH` over `tablet_servers_`
(lines 273-279): scan the locally known handles and stop at the first
whose `(permanent_uuid, instance_seqno)` pair equals the response
entry's. -/
def anyMatch (e : NodeInstance) : List NodeInstance → Bool
  | [] => false
  | h :: rest =>
    if h.permanent_uuid = e.permanent_uuid ∧ h.instance_seqno = e.instance_seqno
    then true
    else anyMatch e rest

/-- Embedding of the `match_count` computation (lines 271-280): one
increment per response entry whose identity pair matches some locally
known tablet-server handle. -/
def matchCount (servers handles : List NodeInstance) : Nat :=
  match servers with
  | [] => 0
  | e :: rest => (if anyMatch e handles then 1 else 0) + matchCount rest handles

/-! ## Convergence-waiter deadline check (lines 255-259) -/

/-- What one iteration of `WaitForTabletServerCount`'s loop does at
its top: either return `Status::TimedOut` or proceed to issue the
`ListTabletServers` RPC with the remaining time as its timeout. -/
inductive WaiterAction where
  | timedOut
  | issueRpc (timeoutNanos : Int)
deriving DecidableEq, Repr

/-- Embedding of lines 255-264: `remaining` is the signed nanosecond
count `deadline - now`; the loop returns `TimedOut` exactly when
`remaining.ToSeconds() < 0`, i.e. when the count is strictly
negative, and otherwise issues the RPC with `remaining` as timeout. -/
def waiterIterAction (remaining : Int) : WaiterAction :=
  if remaining < 0 then .timedOut else .issueRpc remaining

/-! ## ExternalDaemon state (lines 317-456)

The mutable fields of an `ExternalDaemon`: the subprocess handle
`process_` (a pid when live), the parsed status record `status_`, and
the endpoints `bound_rpc_` / `bound_http_` retained at `Shutdown`.
The immutable constructor arguments `exe_`, `data_dir_` and
`extra_flags_` are carried along.  File-system and process effects
(launch success, probe observations, the parsed artifact) are oracle
inputs to `startProcess`. -/

structure DaemonState where
  exe : String
  data_dir : String
  extra_flags : List String
  process : Option Nat
  status : Option ServerStatusPB
  bound_rpc : HostPort
  bound_http : HostPort
deriving DecidableEq, Repr

/-- The daemon state right after the `ExternalDaemon` constructor
(lines 317-323): no process, no status, default-constructed retained
endpoints. -/
def initDaemon (exe data_dir : String) (extra_flags : List String) : DaemonState :=
  ⟨exe, data_dir, extra_flags, none, none, HostPort.default, HostPort.default⟩

/-- Environment inputs consumed by one `StartProcess` call: whether
`Subprocess::Start` succeeds (line 363), the probe observation trace
(lines 366-391), the artifact parse result (`ReadPBFromPath`,
line 394: `some` on success), and the child pid. -/
structure StartInputs where
  launchOk : Bool
  trace : List ProbeStep
  parsed : Option ServerStatusPB
  pid : Nat
deriving DecidableEq, Repr

/-- Outcome of `ExternalDaemon::StartProcess`. `alreadyRunning` is the
`CHECK(!process_)` abort (line 330); the middle four mirror the error
returns; `ok` is the success path. -/
inductive StartResult where
  | alreadyRunning
  | launchFailed
  | exitedEarly (rc : Int)
  | waitFailed
  | timedOut
  | parseFailed
  | ok
deriving DecidableEq, Repr

/-- Embedding of `ExternalDaemon::StartProcess` (lines 329-401) as a
state transformer.  On the success path `status_` is installed
(line 393 allocates it, line 394 fills it) strictly before `process_`
(line 399); on artifact-parse failure `status_` holds the freshly
allocated empty record and `process_` stays empty; on every earlier
failure neither field changes. -/
def startProcess (s : DaemonState) (inp : StartInputs) : DaemonState × StartResult :=
  match s.process with
  | some _ => (s, .alreadyRunning)
  | none =>
    if !inp.launchOk then (s, .launchFailed)
    else
      match runProbe inp.trace with
      | .exitedEarly rc => (s, .exitedEarly rc)
      | .waitFailed => (s, .waitFailed)
      | .timedOut => (s, .timedOut)
      | .success =>
        match inp.parsed with
        | none => ({ s with status := some emptyStatus }, .parseFailed)
        | some st => ({ s with status := some st, process := some inp.pid }, .ok)

/-- Embedding of the accessor `ExternalDaemon::bound_rpc_hostport`
(lines 429-435): `none` models the `CHECK(status_)` /
`CHECK_GE(..., 1)` aborts, otherwise the first bound RPC address. -/
def bound_rpc_hostport (s : DaemonState) : Option HostPort :=
  s.status.bind fun st => st.bound_rpc_addresses.head?

/-- Embedding of the accessor `ExternalDaemon::bound_http_hostport`
(lines 445-451). -/
def bound_http_hostport (s : DaemonState) : Option HostPort :=
  s.status.bind fun st => st.bound_http_addresses.head?

/-- Embedding of `ExternalDaemon::Shutdown` (lines 415-427): a no-op
without a live process, otherwise capture the bound endpoints into
the retained fields (reading the status record; `none` models the
`CHECK` aborts inside the accessors), kill, and clear `process_`.
`status_` is left untouched. -/
def daemonShutdown (s : DaemonState) : Option DaemonState :=
  match s.process with
  | none => some s
  | some _ => do
    let rpc ← bound_rpc_hostport s
    let http ← bound_http_hostport s
    some { s with bound_rpc := rpc, bound_http := http, process := none }

/-- One lifecycle operation on a daemon, for reasoning about
operation sequences.  `restart` carries the guard-then-start shape
shared by `ExternalMaster::Restart` and
`ExternalTabletServer::Restart` (lines 489-500, 528-540): it is a
no-op when the retained RPC port is 0 and otherwise a `StartProcess`.
`pause`/`resume` (lines 403-413) only signal the process. -/
inductive DaemonOp where
  | start (inp : StartInputs)
  | restart (inp : StartInputs)
  | pause
  | resume
  | shutdown
deriving DecidableEq, Repr

/-- One step of the daemon lifecycle; `none` models a `CHECK` abort
inside `Shutdown`'s endpoint capture. -/
def daemonStep (s : DaemonState) (op : DaemonOp) : Option DaemonState :=
  match op with
  | .start inp => some (startProcess s inp).1
  | .restart inp =>
    if s.bound_rpc.port = 0 then some s else some (startProcess s inp).1
  | .pause => some s
  | .resume => some s
  | .shutdown => daemonShutdown s

/-- Run a sequence of daemon lifecycle operations from a state. -/
def daemonExec (s : DaemonState) : List DaemonOp → Option DaemonState
  | [] => some s
  | op :: ops => (daemonStep s op).bind fun s1 => daemonExec s1 ops

/-! ## ExternalMaster and ExternalTabletServer (lines 462-540) -/

/-- Embedding of `ExternalMaster`: its daemon state plus the
constructor-fixed `rpc_bind_address_` (defaulting to `127.0.0.1:0`,
line 466). -/
structure MasterState extends DaemonState where
  rpc_bind_address : String
deriving DecidableEq, Repr

/-- Embedding of `ExternalTabletServer`: its daemon state plus the
comma-joined master address list (line 512). -/
structure TserverState extends DaemonState where
  master_addrs : String
deriving DecidableEq, Repr

/-- Role flags built by `ExternalMaster::Start` (lines 480-487). -/
def masterStartFlags (m : MasterState) : List String :=
  ["--master_base_dir=" ++ m.data_dir,
   "--master_rpc_bind_addresses=" ++ m.rpc_bind_address,
   "--master_web_port=0"]

/-- Role flags built by `ExternalMaster::Restart` after its guard
(lines 494-497): note the RPC bind-address flag reuses the
constructor-fixed `rpc_bind_address_`, while the web-port flag uses
the retained `bound_http_` port. -/
def masterRestartFlags (m : MasterState) : List String :=
  ["--master_base_dir=" ++ m.data_dir,
   "--master_rpc_bind_addresses=" ++ m.rpc_bind_address,
   "--master_web_port=" ++ toString m.bound_http.port]

/-- Role flags built by `ExternalTabletServer::Start`
(lines 518-526). -/
def tserverStartFlags (t : TserverState) : List String :=
  ["--tablet_server_base_dir=" ++ t.data_dir,
   "--tablet_server_rpc_bind_addresses=127.0.0.1:0",
   "--tablet_server_web_port=0",
   "--tablet_server_master_addrs=" ++ t.master_addrs]

/-- Role flags built by `ExternalTabletServer::Restart` after its
guard (lines 533-537): the RPC bind-address flag reuses the retained
`bound_rpc_` endpoint and the web-port flag the retained `bound_http_`
port. -/
def tserverRestartFlags (t : TserverState) : List String :=
  ["--tablet_server_base_dir=" ++ t.data_dir,
   "--tablet_server_rpc_bind_addresses=" ++ t.bound_rpc.toStr,
   "--tablet_server_web_port=" ++ toString t.bound_http.port,
   "--tablet_server_master_addrs=" ++ t.master_addrs]

/-- Result of a `Restart` call: the `IllegalState` early return (no
process launched), or a launch with the full argument vector passed
to `Subprocess` and the `StartProcess` outcome. -/
inductive RestartResult where
  | illegalState
  | launched (argv : List String) (res : StartResult)
deriving DecidableEq, Repr

/-- Embedding of `ExternalMaster::Restart` (lines 489-500): guard on
the retained RPC port, then `StartProcess` with the rebuilt flags. -/
def masterRestart (m : MasterState) (inp : StartInputs) :
    MasterState × RestartResult :=
  if m.bound_rpc.port = 0 then (m, .illegalState)
  else
    ({ m with toDaemonState := (startProcess m.toDaemonState inp).1 },
     .launched (startArgv m.exe m.data_dir m.extra_flags (masterRestartFlags m))
       (startProcess m.toDaemonState inp).2)

/-- Embedding of `ExternalTabletServer::Restart` (lines 528-540). -/
def tserverRestart (t : TserverState) (inp : StartInputs) :
    TserverState × RestartResult :=
  if t.bound_rpc.port = 0 then (t, .illegalState)
  else
    ({ t with toDaemonState := (startProcess t.toDaemonState inp).1 },
     .launched (startArgv t.exe t.data_dir t.extra_flags (tserverRestartFlags t))
       (startProcess t.toDaemonState inp).2)

/-! ## Distributed-master topology planning
(`ExternalMiniCluster::StartDistributedMasters`, lines 174-229)

The flag sets are modelled before the per-index `${index}`
substitution of `SubstituteInFlags` (lines 152-160), which rewrites
flag strings but neither adds nor removes entries.  The follower
address vectors (`follower_addrs`, line 184, and `other_peer_addrs`,
line 205) are kept as lists; the flags join them with commas exactly
as `JoinStrings(..., ",")` does. -/

/-- The address string `127.0.0.1:ports[i]` built by
`Substitute("127.0.0.1:$0", opts_.master_rpc_ports[i])` (lines 183,
186, 207). -/
def masterAddrOf (ports : List Nat) (i : Nat) : String :=
  "127.0.0.1:" ++ toString (ports.getD i 0)

/-- The leader master's address (line 183): index 0's. -/
def leaderAddr (ports : List Nat) : String := masterAddrOf ports 0

/-- The loop indices `i = 1 .. num_masters-1` of lines 185 and 203. -/
def followerIdxs (numMasters : Nat) : List Nat := List.range' 1 (numMasters - 1)

/-- Embedding of the `follower_addrs` vector handed to the leader
(lines 184-187): the addresses of every master at index `i ≥ 1`. -/
def leaderFollowerAddrs (ports : List Nat) : List String :=
  (followerIdxs ports.length).map (masterAddrOf ports)

/-- Embedding of the `other_peer_addrs` vector handed to the follower
at index `i` (lines 204-213): the addresses of every master at index
`j ≥ 1` with `j ≠ i`. -/
def followerOtherPeerAddrs (ports : List Nat) (i : Nat) : List String :=
  (followerIdxs ports.length).filterMap fun j =>
    if j = i then none else some (masterAddrOf ports j)

/-- The leader's flag set (lines 192-194): the extra master flags,
`--leader`, and the comma-joined follower addresses. -/
def leaderFlags (extra : List String) (ports : List Nat) : List String :=
  extra ++ ["--leader",
            "--follower_addresses=" ++ String.intercalate "," (leaderFollowerAddrs ports)]

/-- The flag set of the follower at index `i` (lines 215-217): the
extra master flags, the leader's address, and the comma-joined
addresses of the other followers. -/
def followerFlags (extra : List String) (ports : List Nat) (i : Nat) : List String :=
  extra ++ ["--leader_address=" ++ leaderAddr ports,
            "--follower_addresses=" ++ String.intercalate "," (followerOtherPeerAddrs ports i)]

/-- The full plan of `StartDistributedMasters`: the leader's flag set
followed by one flag set per follower index (lines 196-226). -/
def planDistributedMasters (extra : List String) (ports : List Nat) :
    List (List String) :=
  leaderFlags extra ports ::
    (followerIdxs ports.length).map (followerFlags extra ports)

/-! ## Cluster orchestrator state
(`ExternalMiniCluster`, lines 49-139)

Daemons are identified by opaque ids; a master slot may be `NULL`
(the constructor resizes `masters_` with `NULL` entries, line 52).
`Shutdown` and the destructor are modelled as state transformers that
also emit the list of shutdown effects they perform, in order. -/

structure ClusterState where
  masters : List (Option Nat)
  tablet_servers : List Nat
  messenger : Option Unit
  started : Bool
deriving DecidableEq, Repr

/-- An observable teardown effect: shutting down one daemon handle,
or shutting down and releasing the shared messenger. -/
inductive Effect where
  | shutdownDaemon (id : Nat)
  | shutdownMessenger
deriving DecidableEq, Repr

/-- Embedding of `ExternalMiniCluster::Shutdown` (lines 118-139):
shut down every non-`NULL` master and clear the master list, shut
down every tablet server and clear that list, then shut down and
release the messenger if present, and reset `started_`. -/
def clusterShutdown (s : ClusterState) : ClusterState × List Effect :=
  let masterEffects := s.masters.filterMap fun m => m.map Effect.shutdownDaemon
  let tsEffects := s.tablet_servers.map Effect.shutdownDaemon
  let messengerEffects := if s.messenger.isSome then [Effect.shutdownMessenger] else []
  (⟨[], [], none, false⟩, masterEffects ++ tsEffects ++ messengerEffects)

/-- Embedding of `ExternalMiniCluster::~ExternalMiniCluster`
(lines 55-59): call `Shutdown` only when `started_` is set, i.e. only
when a previous `Start` ran to completion. -/
def clusterDestructor (s : ClusterState) : List Effect :=
  if s.started then (clusterShutdown s).2 else []

/-- Extract the argument vector a `Restart` launched with (empty when
the guard rejected the call). -/
def restartArgv : RestartResult → List String
  | .illegalState => []
  | .launched argv _ => argv

/-! ## Concrete example states used by counterexamples and witnesses -/

/-- A concrete status artifact: identity `(uuid-A, 1)`, bound RPC
endpoint `127.0.0.1:5000`, bound HTTP endpoint `127.0.0.1:8080`. -/
def exampleStatus : ServerStatusPB :=
  ⟨⟨"uuid-A", 1⟩, [⟨"127.0.0.1", 5000⟩], [⟨"127.0.0.1", 8080⟩]⟩

/-- Start inputs for a clean successful start: launch succeeds, the
artifact is present at the first poll and parses to
`exampleStatus`. -/
def exampleStart : StartInputs :=
  ⟨true, [⟨true, .stillRunning⟩], some exampleStatus, 7⟩

/-- A freshly constructed single-config master (constructor of
lines 462-467: bind address `127.0.0.1:0`). -/
def exampleMaster0 : MasterState :=
  ⟨initDaemon "kudu-master" "/data/master-0" [], "127.0.0.1:0"⟩

/-- The `exampleMaster0` daemon after a successful start with
`exampleStart` followed by a `Shutdown`: the process handle is
cleared and the endpoints of `exampleStatus` are retained. -/
def exampleMasterShut : MasterState :=
  ⟨⟨"kudu-master", "/data/master-0", [], none, some exampleStatus,
    ⟨"127.0.0.1", 5000⟩, ⟨"127.0.0.1", 8080⟩⟩, "127.0.0.1:0"⟩

/-- A tablet server in the analogous shut-down state. -/
def exampleTserverShut : TserverState :=
  ⟨⟨"kudu-tablet_server", "/data/ts-0", [], none, some exampleStatus,
    ⟨"127.0.0.1", 5000⟩, ⟨"127.0.0.1", 8080⟩⟩, "127.0.0.1:7051"⟩

/-- An orchestrator state in which `Start` was invoked but failed
before completion: one master and one tablet server were brought up
and the messenger was built, but `started_` was never set. -/
def exampleClusterFailedStart : ClusterState :=
  ⟨[some 1], [42], some (), false⟩

/-- An orchestrator state after a fully successful `Start` (one
master slot also left `NULL` to exercise the null check). -/
def exampleClusterStarted : ClusterState :=
  ⟨[some 1, none], [42], some (), true⟩

/-! ## Helper lemmas -/

/-- The inner convergence-check loop returns true exactly when some
locally known handle has the same identity pair as the entry. -/
theorem anyMatch_iff (e : NodeInstance) (hs : List NodeInstance) :
    anyMatch e hs = true ↔
      ∃ h ∈ hs, h.permanent_uuid = e.permanent_uuid ∧
        h.instance_seqno = e.instance_seqno := by
  induction hs with
  | nil => simp [anyMatch]
  | cons h rest ih =>
    by_cases hm : h.permanent_uuid = e.permanent_uuid ∧ h.instance_seqno = e.instance_seqno
    · simp [anyMatch, hm]
    · simp only [anyMatch, if_neg hm, ih, List.mem_cons]
      constructor
      · rintro ⟨x, hx, hxe⟩; exact ⟨x, Or.inr hx, hxe⟩
      · rintro ⟨x, hx | hx, hxe⟩
        · exact absurd (hx ▸ hxe) hm
        · exact ⟨x, hx, hxe⟩

/-- Unfolding lemma: the probe on a non-final still-running
observation proceeds to the rest of the trace. -/
theorem runProbe_cons_still (t : ProbeStep) (rest : List ProbeStep)
    (h1 : t.fileExists = false) (h2 : t.wait = .stillRunning) :
    runProbe (t :: rest) = runProbe rest := by
  simp [runProbe, h1, h2]

/-- `startProcess` never changes the retained endpoint fields. -/
theorem startProcess_preserves_retained (s : DaemonState) (inp : StartInputs) :
    (startProcess s inp).1.bound_rpc = s.bound_rpc ∧
      (startProcess s inp).1.bound_http = s.bound_http := by
  unfold startProcess
  cases s.process with
  | some p => exact ⟨rfl, rfl⟩
  | none =>
    by_cases hl : inp.launchOk
    · cases hr : runProbe inp.trace <;> simp [hl, hr]
      cases inp.parsed <;> simp
    · simp [hl]

/-- `startProcess` preserves the invariant "a live process handle
implies a populated status record". -/
theorem startProcess_preserves_inv (s : DaemonState) (inp : StartInputs)
    (h : s.process.isSome = true → s.status.isSome = true) :
    (startProcess s inp).1.process.isSome = true →
      (startProcess s inp).1.status.isSome = true := by
  unfold startProcess
  cases hp : s.process with
  | some p => simpa [hp] using h
  | none =>
    by_cases hl : inp.launchOk
    · cases hr : runProbe inp.trace <;> simp [hl, hr, hp]
      cases inp.parsed <;> simp
    · simp [hl, hp]

/-- A step of the daemon lifecycle preserves the live-process ⇒
status-present invariant. -/
theorem daemonStep_preserves_inv (s s' : DaemonState) (op : DaemonOp)
    (hstep : daemonStep s op = some s')
    (h : s.process.isSome = true → s.status.isSome = true) :
    s'.process.isSome = true → s'.status.isSome = true := by
  cases op with
  | start inp =>
    cases hstep; exact startProcess_preserves_inv s inp h
  | restart inp =>
    by_cases hg : s.bound_rpc.port = 0
    · simp only [daemonStep, if_pos hg, Option.some.injEq] at hstep
      exact hstep ▸ h
    · simp only [daemonStep, if_neg hg, Option.some.injEq] at hstep
      exact hstep ▸ startProcess_preserves_inv s inp h
  | pause => cases hstep; exact h
  | resume => cases hstep; exact h
  | shutdown =>
    simp only [daemonStep] at hstep
    unfold daemonShutdown at hstep
    cases hp : s.process with
    | none => rw [hp] at hstep; cases hstep; exact h
    | some p =>
      rw [hp] at hstep
      cases hrpc : bound_rpc_hostport s with
      | none => rw [hrpc] at hstep; cases hstep
      | some rpc =>
        cases hhttp : bound_http_hostport s with
        | none => rw [hrpc, hhttp] at hstep; cases hstep
        | some http =>
          rw [hrpc, hhttp] at hstep
          cases hstep
          intro hlive; cases hlive

/-- Execution of a whole operation list preserves the invariant. -/
theorem daemonExec_preserves_inv (ops : List DaemonOp) :
    ∀ (s s' : DaemonState), daemonExec s ops = some s' →
      (s.process.isSome = true → s.status.isSome = true) →
      s'.process.isSome = true → s'.status.isSome = true := by
  induction ops with
  | nil => intro s s' hex h; cases hex; exact h
  | cons op rest ih =>
    intro s s' hex h
    simp only [daemonExec] at hex
    cases hstep : daemonStep s op with
    | none => rw [hstep] at hex; cases hex
    | some s1 =>
      rw [hstep] at hex
      exact ih s1 s' hex (daemonStep_preserves_inv s s1 op hstep h)

/-- Non-`shutdown` steps never change the retained endpoints. -/
theorem daemonStep_preserves_retained (s s' : DaemonState) (op : DaemonOp)
    (hop : op ≠ .shutdown) (hstep : daemonStep s op = some s') :
    s'.bound_rpc = s.bound_rpc ∧ s'.bound_http = s.bound_http := by
  cases op with
  | start inp => cases hstep; exact startProcess_preserves_retained s inp
  | restart inp =>
    by_cases hg : s.bound_rpc.port = 0
    · simp only [daemonStep, if_pos hg, Option.some.injEq] at hstep
      exact hstep ▸ ⟨rfl, rfl⟩
    · simp only [daemonStep, if_neg hg, Option.some.injEq] at hstep
      exact hstep ▸ startProcess_preserves_retained s inp
  | pause => cases hstep; exact ⟨rfl, rfl⟩
  | resume => cases hstep; exact ⟨rfl, rfl⟩
  | shutdown => exact absurd rfl hop

/-- A shutdown-free execution never changes the retained endpoints. -/
theorem daemonExec_preserves_retained (ops : List DaemonOp) :
    ∀ (s s' : DaemonState), (∀ op ∈ ops, op ≠ DaemonOp.shutdown) →
      daemonExec s ops = some s' →
      s'.bound_rpc = s.bound_rpc ∧ s'.bound_http = s.bound_http := by
  induction ops with
  | nil => intro s s' _ hex; cases hex; exact ⟨rfl, rfl⟩
  | cons op rest ih =>
    intro s s' hops hex
    simp only [daemonExec] at hex
    cases hstep : daemonStep s op with
    | none => rw [hstep] at hex; cases hex
    | some s1 =>
      rw [hstep] at hex
      have h1 := daemonStep_preserves_retained s s1 op (hops op (by simp)) hstep
      have h2 := ih s1 s' (fun o ho => hops o (by simp [ho])) hex
      exact ⟨h2.1.trans h1.1, h2.2.trans h1.2⟩

/-- When all master addresses derived from the port list are pairwise
distinct, equal addresses force equal indices. -/
theorem masterAddrOf_inj (ports : List Nat)
    (hnd : ((List.range ports.length).map (masterAddrOf ports)).Nodup)
    {a b : Nat} (ha : a < ports.length) (hb : b < ports.length)
    (h : masterAddrOf ports a = masterAddrOf ports b) : a = b := by
  have hlen : ((List.range ports.length).map (masterAddrOf ports)).length =
      ports.length := by simp
  have ha' : a < ((List.range ports.length).map (masterAddrOf ports)).length := by
    rw [hlen]; exact ha
  have hb' : b < ((List.range ports.length).map (masterAddrOf ports)).length := by
    rw [hlen]; exact hb
  have hga : ((List.range ports.length).map (masterAddrOf ports))[a] =
      masterAddrOf ports a := by simp
  have hgb : ((List.range ports.length).map (masterAddrOf ports))[b] =
      masterAddrOf ports b := by simp
  exact (hnd.getElem_inj_iff).mp (by rw [hga, hgb]; exact h)

/-- Rewriting of the `other_peer_addrs` loop: dropping index `i` then
mapping the address builder. -/
theorem followerOtherPeerAddrs_eq (ports : List Nat) (i : Nat) :
    followerOtherPeerAddrs ports i =
      ((followerIdxs ports.length).filter fun j => j != i).map (masterAddrOf ports) := by
  unfold followerOtherPeerAddrs
  generalize followerIdxs ports.length = l
  induction l with
  | nil => rfl
  | cons j rest ih =>
    by_cases hj : j = i
    · simp [List.filterMap_cons, List.filter_cons, hj, ih]
    · simp [List.filterMap_cons, List.filter_cons, hj, ih]

/-- Membership in the follower index list means an index between 1
and the master count. -/
theorem mem_followerIdxs {n j : Nat} (hn : 1 ≤ n) :
    j ∈ followerIdxs n ↔ 1 ≤ j ∧ j < n := by
  unfold followerIdxs
  rw [List.mem_range'_1]
  omega

/-! ## Claim theorems -/

/-- C9: for every daemon start, the launched argument vector is, in
order, the executable basename, the caller's role flags, the
per-instance extra flags, the artifact-path flag, the artifact-format
flag, the two unbuffered-stderr logging flags, and the localhost-only
web-interface flag. -/
theorem startProcess_argv_order (exe data_dir : String)
    (extra_flags user_flags : List String) :
    startArgv exe data_dir extra_flags user_flags =
      [BaseName exe] ++ user_flags ++ extra_flags ++
        ["--server_dump_info_path=" ++ JoinPathSegments data_dir "info.pb",
         "--server_dump_info_format=pb",
         "--logtostderr",
         "--logbuflevel=-1",
         "--webserver_interface=localhost"] := by
  simp [startArgv]

/-- C7: a second orchestrator `Shutdown` in a row finds the emptied
state, performs no shutdown action, and leaves the state unchanged —
`Shutdown` is idempotent. -/
theorem cluster_shutdown_idempotent (s : ClusterState) :
    clusterShutdown (clusterShutdown s).1 = ((clusterShutdown s).1, []) := by
  rfl

/-- C6 counterexample: with exactly zero time remaining (a
non-positive remainder), the waiter loop does not time out but issues
one more RPC (with a zero timeout), contradicting the claim that any
non-positive remainder fails with `TimedOut` and issues no RPC. -/
theorem waiter_zero_remaining_issues_rpc :
    waiterIterAction 0 = .issueRpc 0 ∧ waiterIterAction 0 ≠ .timedOut := by
  decide

/-- C6 (amended): in every iteration of the convergence waiter's
loop, if the remaining time until the deadline is strictly negative,
the waiter fails with `TimedOut` and issues no RPC in that
iteration. -/
theorem waiter_negative_remaining_times_out (remaining : Int)
    (h : remaining < 0) : waiterIterAction remaining = .timedOut := by
  simp [waiterIterAction, h]

/-- Witness for the amended C6 theorem at `remaining = -1`. -/
theorem waiter_negative_remaining_times_out_witness :
    (-1 : Int) < 0 ∧ waiterIterAction (-1) = .timedOut :=
  ⟨by decide, waiter_negative_remaining_times_out (-1) (by decide)⟩

/-- C4: the convergence waiter's `match_count` counts exactly the
response entries whose `(permanent_uuid, instance_seqno)` pair equals
the identity of some locally known tablet-server handle; and an entry
for which every uuid-matching handle has a different sequence number
contributes nothing to the count. -/
theorem waiter_counts_only_exact_identity (servers handles : List NodeInstance) :
    (matchCount servers handles =
      (servers.filter fun e =>
        decide (∃ h ∈ handles, h.permanent_uuid = e.permanent_uuid ∧
          h.instance_seqno = e.instance_seqno)).length) ∧
    (∀ e rest,
      (∀ h ∈ handles, h.permanent_uuid = e.permanent_uuid →
        h.instance_seqno ≠ e.instance_seqno) →
      matchCount (e :: rest) handles = matchCount rest handles) := by
  constructor
  · induction servers with
    | nil => rfl
    | cons e rest ih =>
      by_cases hm : ∃ h ∈ handles, h.permanent_uuid = e.permanent_uuid ∧
          h.instance_seqno = e.instance_seqno
      · have : anyMatch e handles = true := (anyMatch_iff e handles).mpr hm
        simp [matchCount, List.filter_cons, this, hm, ih, Nat.add_comm]
      · have : anyMatch e handles = false := by
          rw [Bool.eq_false_iff]
          intro hc
          exact hm ((anyMatch_iff e handles).mp hc)
        simp [matchCount, List.filter_cons, this, hm, ih]
  · intro e rest hmm
    have : anyMatch e handles = false := by
      rw [Bool.eq_false_iff]
      intro hc
      obtain ⟨h, hh, h1, h2⟩ := (anyMatch_iff e handles).mp hc
      exact hmm h hh h1 h2
    simp [matchCount, this]

/-- Witness for C4: a returned entry whose uuid matches a local
handle but whose sequence number differs is not counted. -/
theorem waiter_counts_only_exact_identity_witness :
    matchCount [⟨"uuid-A", 2⟩] [⟨"uuid-A", 1⟩] = 0 := by
  have h := (waiter_counts_only_exact_identity [⟨"uuid-A", 2⟩] [⟨"uuid-A", 1⟩]).2
    ⟨"uuid-A", 2⟩ [] (by decide)
  simpa [matchCount] using h

/-- C3: if the startup probe observes (via the non-blocking wait)
that the monitored process exited before the status artifact ever
appeared — every earlier poll saw no artifact and a still-running
process, and the current poll sees no artifact and an exit with code
`rc` — then the probe reports the process-exited-early error carrying
`rc`, and in particular never reports the startup timeout. -/
theorem probe_exit_before_artifact (pre post : List ProbeStep)
    (s : ProbeStep) (rc : Int)
    (hpre : ∀ t ∈ pre, t.fileExists = false ∧ t.wait = .stillRunning)
    (hs1 : s.fileExists = false) (hs2 : s.wait = .exited rc) :
    runProbe (pre ++ s :: post) = .exitedEarly rc ∧
      runProbe (pre ++ s :: post) ≠ .timedOut := by
  have heq : runProbe (pre ++ s :: post) = .exitedEarly rc := by
    induction pre with
    | nil => simp [runProbe, hs1, hs2]
    | cons t ts ih =>
      have ht := hpre t (by simp)
      rw [List.cons_append, runProbe_cons_still t (ts ++ s :: post) ht.1 ht.2]
      exact ih (fun u hu => hpre u (by simp [hu]))
  exact ⟨heq, by rw [heq]; simp⟩

/-- Witness for C3: a concrete trace in which the second poll sees
the exit (code 3) before any artifact. -/
theorem probe_exit_before_artifact_witness :
    runProbe [⟨false, .stillRunning⟩, ⟨false, .exited 3⟩] = .exitedEarly 3 := by
  have h := probe_exit_before_artifact [⟨false, .stillRunning⟩] []
    ⟨false, .exited 3⟩ 3 (by decide) rfl rfl
  simpa using h.1

/-- C10: in every daemon state reachable from construction by
lifecycle operations, a live process handle implies a populated
status record (`StartProcess` installs the status before the process
handle); and `Shutdown` clears the process handle while leaving the
status record untouched. -/
theorem daemon_live_process_has_status :
    (∀ (exe data_dir : String) (extra_flags : List String)
       (ops : List DaemonOp) (s : DaemonState),
       daemonExec (initDaemon exe data_dir extra_flags) ops = some s →
       s.process.isSome = true → s.status.isSome = true) ∧
    (∀ (s s' : DaemonState), daemonShutdown s = some s' →
       s'.status = s.status ∧ s'.process = none) := by
  constructor
  · intro exe dd ef ops s hex
    refine daemonExec_preserves_inv ops _ s hex ?_
    intro h
    simp [initDaemon] at h
  · intro s s' hsd
    unfold daemonShutdown at hsd
    cases hp : s.process with
    | none =>
      rw [hp] at hsd
      cases hsd
      exact ⟨rfl, hp⟩
    | some p =>
      rw [hp] at hsd
      cases hrpc : bound_rpc_hostport s with
      | none => rw [hrpc] at hsd; cases hsd
      | some rpc =>
        cases hhttp : bound_http_hostport s with
        | none => rw [hrpc, hhttp] at hsd; cases hsd
        | some http =>
          rw [hrpc, hhttp] at hsd
          cases hsd
          exact ⟨rfl, rfl⟩

/-- Witness for C10: a concrete successful start yields a state whose
live process comes with a populated status record, and shutting that
state down clears the process while keeping the status. -/
theorem daemon_live_process_has_status_witness :
    ((⟨"kudu-master", "/d", [], some 5, some exampleStatus,
        HostPort.default, HostPort.default⟩ : DaemonState).status.isSome = true) ∧
    ((⟨"kudu-master", "/d", [], none, some exampleStatus,
        ⟨"127.0.0.1", 5000⟩, ⟨"127.0.0.1", 8080⟩⟩ : DaemonState).status =
      (⟨"kudu-master", "/d", [], some 5, some exampleStatus,
        HostPort.default, HostPort.default⟩ : DaemonState).status) :=
  ⟨daemon_live_process_has_status.1 "kudu-master" "/d" []
      [DaemonOp.start ⟨true, [⟨true, WaitObs.stillRunning⟩], some exampleStatus, 5⟩]
      _ rfl rfl,
   (daemon_live_process_has_status.2
      ⟨"kudu-master", "/d", [], some 5, some exampleStatus,
        HostPort.default, HostPort.default⟩
      ⟨"kudu-master", "/d", [], none, some exampleStatus,
        ⟨"127.0.0.1", 5000⟩, ⟨"127.0.0.1", 8080⟩⟩ (by decide)).1⟩

/-- C5: for a daemon on which `Shutdown` has never been called (any
operation sequence from construction that contains no shutdown),
`Restart` returns `IllegalState` and leaves the daemon unchanged —
no process is launched. -/
theorem restart_without_shutdown_illegal
    (exe data_dir : String) (extra_flags : List String)
    (ops : List DaemonOp) (s : DaemonState) (inp : StartInputs)
    (hops : ∀ op ∈ ops, op ≠ DaemonOp.shutdown)
    (hex : daemonExec (initDaemon exe data_dir extra_flags) ops = some s) :
    (∀ m : MasterState, m.toDaemonState = s →
        masterRestart m inp = (m, .illegalState)) ∧
    (∀ t : TserverState, t.toDaemonState = s →
        tserverRestart t inp = (t, .illegalState)) := by
  have h0 : s.bound_rpc = (initDaemon exe data_dir extra_flags).bound_rpc :=
    (daemonExec_preserves_retained ops _ s hops hex).1
  have hport : s.bound_rpc.port = 0 := by rw [h0]; rfl
  constructor
  · intro m hm
    have : m.bound_rpc.port = 0 := by rw [hm]; exact hport
    simp [masterRestart, this]
  · intro t ht
    have : t.bound_rpc.port = 0 := by rw [ht]; exact hport
    simp [tserverRestart, this]

/-- Witness for C5: a freshly constructed (and even successfully
started) master and tablet server refuse `Restart`. -/
theorem restart_without_shutdown_illegal_witness :
    masterRestart ⟨initDaemon "kudu-master" "/d/m" [], "127.0.0.1:0"⟩
        ⟨true, [], none, 0⟩ =
      (⟨initDaemon "kudu-master" "/d/m" [], "127.0.0.1:0"⟩, .illegalState) ∧
    tserverRestart ⟨initDaemon "kudu-tablet_server" "/d/ts" [], "127.0.0.1:7051"⟩
        ⟨true, [], none, 0⟩ =
      (⟨initDaemon "kudu-tablet_server" "/d/ts" [], "127.0.0.1:7051"⟩, .illegalState) := by
  constructor
  · exact (restart_without_shutdown_illegal "kudu-master" "/d/m" [] [] _
      ⟨true, [], none, 0⟩ (by simp) rfl).1 _ rfl
  · exact (restart_without_shutdown_illegal "kudu-tablet_server" "/d/ts" [] [] _
      ⟨true, [], none, 0⟩ (by simp) rfl).2 _ rfl

/-- C1 counterexample: a master started with the default ephemeral
bind address and then shut down (retaining `127.0.0.1:5000` as its
bound RPC endpoint) relaunches on `Restart`, but the launch arguments
carry `--master_rpc_bind_addresses=127.0.0.1:0` — the constructor's
`rpc_bind_address_` — and not the endpoint captured at `Shutdown`. -/
theorem master_restart_drops_captured_rpc_endpoint :
    daemonShutdown (startProcess exampleMaster0.toDaemonState exampleStart).1 =
        some exampleMasterShut.toDaemonState ∧
    exampleMasterShut.bound_rpc = ⟨"127.0.0.1", 5000⟩ ∧
    (masterRestart exampleMasterShut exampleStart).2 ≠ .illegalState ∧
    ("--master_rpc_bind_addresses=" ++ HostPort.toStr ⟨"127.0.0.1", 5000⟩) ∉
        restartArgv (masterRestart exampleMasterShut exampleStart).2 ∧
    "--master_rpc_bind_addresses=127.0.0.1:0" ∈
        restartArgv (masterRestart exampleMasterShut exampleStart).2 := by
  have hargv : restartArgv (masterRestart exampleMasterShut exampleStart).2 =
      ["kudu-master", "--master_base_dir=/data/master-0",
       "--master_rpc_bind_addresses=127.0.0.1:0", "--master_web_port=8080",
       "--server_dump_info_path=/data/master-0/info.pb",
       "--server_dump_info_format=pb", "--logtostderr", "--logbuflevel=-1",
       "--webserver_interface=localhost"] := rfl
  refine ⟨rfl, rfl, by decide, ?_, ?_⟩
  · rw [hargv]
    decide
  · rw [hargv]
    decide

/-- C1 (amended): `Shutdown` after a successful start captures the
first bound RPC and HTTP endpoints of the status record into the
retained fields without touching the status; on a subsequent
`Restart`, a tablet server passes exactly the retained RPC endpoint
as its RPC bind-address flag and the retained HTTP port as its
web-port flag, while a master passes its constructor-fixed
`rpc_bind_address_` as the RPC bind-address flag (which equals the
previously bound endpoint only when that address was fixed) and the
retained HTTP port as its web-port flag. -/
theorem restart_reuses_retained_endpoints :
    (∀ (p q : DaemonState), p.process ≠ none → daemonShutdown p = some q →
       bound_rpc_hostport p = some q.bound_rpc ∧
       bound_http_hostport p = some q.bound_http ∧
       q.status = p.status) ∧
    (∀ (t : TserverState) (inp : StartInputs), t.bound_rpc.port ≠ 0 →
       ("--tablet_server_rpc_bind_addresses=" ++ t.bound_rpc.toStr) ∈
           restartArgv (tserverRestart t inp).2 ∧
       ("--tablet_server_web_port=" ++ toString t.bound_http.port) ∈
           restartArgv (tserverRestart t inp).2) ∧
    (∀ (m : MasterState) (inp : StartInputs), m.bound_rpc.port ≠ 0 →
       ("--master_rpc_bind_addresses=" ++ m.rpc_bind_address) ∈
           restartArgv (masterRestart m inp).2 ∧
       ("--master_web_port=" ++ toString m.bound_http.port) ∈
           restartArgv (masterRestart m inp).2) := by
  refine ⟨?_, ?_, ?_⟩
  · intro p q hlive hsd
    unfold daemonShutdown at hsd
    cases hp : p.process with
    | none => exact absurd hp hlive
    | some pid =>
      rw [hp] at hsd
      cases hrpc : bound_rpc_hostport p with
      | none => rw [hrpc] at hsd; cases hsd
      | some rpc =>
        cases hhttp : bound_http_hostport p with
        | none => rw [hrpc, hhttp] at hsd; cases hsd
        | some http =>
          rw [hrpc, hhttp] at hsd
          cases hsd
          exact ⟨rfl, rfl, rfl⟩
  · intro t inp hport
    simp [tserverRestart, hport, restartArgv, startArgv, tserverRestartFlags]
  · intro m inp hport
    simp [masterRestart, hport, restartArgv, startArgv, masterRestartFlags]

/-- Witness for the amended C1: the shut-down tablet server and
master above relaunch with the described flags. -/
theorem restart_reuses_retained_endpoints_witness :
    (("--tablet_server_rpc_bind_addresses=" ++
        HostPort.toStr ⟨"127.0.0.1", 5000⟩) ∈
      restartArgv (tserverRestart exampleTserverShut exampleStart).2) ∧
    (("--master_web_port=" ++ toString (8080 : Nat)) ∈
      restartArgv (masterRestart exampleMasterShut exampleStart).2) :=
  ⟨(restart_reuses_retained_endpoints.2.1 exampleTserverShut exampleStart
      (by decide)).1,
   (restart_reuses_retained_endpoints.2.2 exampleMasterShut exampleStart
      (by decide)).2⟩

/-- C8 counterexample: an orchestrator whose `Start` failed before
completion (`started_` still false) owns a master and a tablet
server, yet its destructor performs no shutdown at all. -/
theorem destructor_skips_unstarted_cluster :
    clusterDestructor exampleClusterFailedStart = [] ∧
    exampleClusterFailedStart.masters = [some 1] ∧
    exampleClusterFailedStart.tablet_servers = [42] := by
  decide

/-- C8 (amended): the orchestrator's destructor shuts down every
owned daemon handle (every non-`NULL` master and every tablet
server) when `started_` is set, i.e. when a previous `Start` ran to
completion; when `Start` was invoked but failed before completion
(`started_` false), the destructor performs no shutdown. -/
theorem destructor_shutdown_effects (s : ClusterState) :
    (s.started = true →
      (∀ id, some id ∈ s.masters →
        Effect.shutdownDaemon id ∈ clusterDestructor s) ∧
      (∀ id, id ∈ s.tablet_servers →
        Effect.shutdownDaemon id ∈ clusterDestructor s)) ∧
    (s.started = false → clusterDestructor s = []) := by
  constructor
  · intro hs
    constructor
    · intro id hm
      simp only [clusterDestructor, hs, if_true, clusterShutdown,
        List.mem_append, List.mem_filterMap]
      exact Or.inl (Or.inl ⟨some id, hm, rfl⟩)
    · intro id hts
      simp only [clusterDestructor, hs, if_true, clusterShutdown,
        List.mem_append, List.mem_map]
      exact Or.inl (Or.inr ⟨id, hts, rfl⟩)
  · intro hs
    simp [clusterDestructor, hs]

/-- Witness for the amended C8: in a started cluster the destructor
shuts down both the master and the tablet server; in the
failed-start cluster it does nothing. -/
theorem destructor_shutdown_effects_witness :
    (Effect.shutdownDaemon 1 ∈ clusterDestructor exampleClusterStarted) ∧
    (Effect.shutdownDaemon 42 ∈ clusterDestructor exampleClusterStarted) ∧
    clusterDestructor exampleClusterFailedStart = [] :=
  ⟨((destructor_shutdown_effects exampleClusterStarted).1 rfl).1 1 (by decide),
   ((destructor_shutdown_effects exampleClusterStarted).1 rfl).2 42 (by decide),
   (destructor_shutdown_effects exampleClusterFailedStart).2 rfl⟩

/-- C2 counterexample: with the duplicate port list `[5, 5]` (length
C = 2), the leader's follower-addresses list has C−1 = 1 entry but
that entry is the leader's own address, so the claim's "none of which
is its own address", quantified over every port list, fails. -/
theorem planner_duplicate_ports_cex :
    leaderAddr [5, 5] ∈ leaderFollowerAddrs [5, 5] ∧
    (leaderFollowerAddrs [5, 5]).length = 2 - 1 := by
  decide

/-- C2 (amended): for every coordinator count C ≥ 1 and every port
list of length C whose C derived coordinator addresses are pairwise
distinct (equivalently, whose ports are pairwise distinct), the
distributed-coordinator planner produces C flag sets; coordinator 0
(the leader) gets a follower-addresses list of exactly C−1 entries,
none of which is its own address; and each follower at index
0 < i < C gets the leader's address plus a follower-addresses list of
exactly C−2 entries that excludes both its own address and the
leader's address. -/
theorem planner_follower_lists (extra : List String) (ports : List Nat)
    (hlen : 1 ≤ ports.length)
    (hnd : ((List.range ports.length).map (masterAddrOf ports)).Nodup) :
    (planDistributedMasters extra ports).length = ports.length ∧
    (leaderFollowerAddrs ports).length = ports.length - 1 ∧
    leaderAddr ports ∉ leaderFollowerAddrs ports ∧
    (∀ i, 1 ≤ i → i < ports.length →
      (followerOtherPeerAddrs ports i).length = ports.length - 2 ∧
      masterAddrOf ports i ∉ followerOtherPeerAddrs ports i ∧
      leaderAddr ports ∉ followerOtherPeerAddrs ports i ∧
      ("--leader_address=" ++ leaderAddr ports) ∈ followerFlags extra ports i) := by
  have hinj : ∀ {a b : Nat}, a < ports.length → b < ports.length →
      masterAddrOf ports a = masterAddrOf ports b → a = b :=
    fun ha hb h => masterAddrOf_inj ports hnd ha hb h
  have h0 : 0 < ports.length := hlen
  refine ⟨?_, ?_, ?_, ?_⟩
  · simp only [planDistributedMasters, List.length_cons, List.length_map,
      followerIdxs, List.length_range']
    omega
  · simp [leaderFollowerAddrs, followerIdxs, List.length_range']
  · intro hmem
    obtain ⟨j, hj, hje⟩ := List.mem_map.mp hmem
    have hj' := (mem_followerIdxs hlen).mp hj
    have : j = 0 := hinj hj'.2 h0 hje
    omega
  · intro i hi1 hi2
    have hiMem : i ∈ followerIdxs ports.length := (mem_followerIdxs hlen).mpr ⟨hi1, hi2⟩
    have hnodupIdx : (followerIdxs ports.length).Nodup :=
      List.nodup_range' 1 (ports.length - 1)
    refine ⟨?_, ?_, ?_, ?_⟩
    · rw [followerOtherPeerAddrs_eq, List.length_map,
        ← hnodupIdx.erase_eq_filter i, List.length_erase_of_mem hiMem]
      unfold followerIdxs
      rw [List.length_range']
      omega
    · rw [followerOtherPeerAddrs_eq]
      intro hmem
      obtain ⟨j, hjf, hje⟩ := List.mem_map.mp hmem
      have hj := List.mem_filter.mp hjf
      have hj1 := (mem_followerIdxs hlen).mp hj.1
      have hji : j = i := hinj hj1.2 hi2 hje
      rw [hji] at hj
      simp at hj
    · rw [followerOtherPeerAddrs_eq]
      intro hmem
      obtain ⟨j, hjf, hje⟩ := List.mem_map.mp hmem
      have hj := List.mem_filter.mp hjf
      have hj1 := (mem_followerIdxs hlen).mp hj.1
      have : j = 0 := hinj hj1.2 h0 hje
      omega
    · simp [followerFlags]

/-- Witness for the amended C2: three distinct ports, checked at the
follower with index 1. -/
theorem planner_follower_lists_witness :
    (planDistributedMasters [] [7000, 7001, 7002]).length = 3 ∧
    (followerOtherPeerAddrs [7000, 7001, 7002] 1).length = 1 ∧
    masterAddrOf [7000, 7001, 7002] 1 ∉ followerOtherPeerAddrs [7000, 7001, 7002] 1 := by
  have h := planner_follower_lists [] [7000, 7001, 7002] (by decide) (by decide)
  have h1 := h.2.2.2 1 (by decide) (by decide)
  exact ⟨h.1, h1.1, h1.2.1⟩

end ExternalMiniClusterModel
